import Mathlib

/-!
Shallow embedding of the decoding-configuration layer of the openpifpaf fork
(`openpifpaf/decoder/factory.py`) and of the dental plugin constants
(`src/openpifpaf/plugins/dental/constants.py`).

Python floats are modelled as rationals (all comparisons involved are exact),
Python `None` as `Option.none`, and failing statements (`assert`, `raise`,
out-of-range list indexing) as `Except.error`.  Class-level attributes that
`configure` mutates (`CifHr.v_threshold`, `CifSeeds.threshold`, ...) are
collected into an explicit `DecoderGlobals` record that `configure` returns
next to the mutated argument record.  The debug visualizer objects built by
`factory_decode` are not carried in the result (they are debug-only
collaborators), but the list indexing their construction performs — which can
raise `IndexError` — is modelled, as is the `NameError` raised by the
`('cifdet',)` branch, whose `CifDet` name is never imported or defined.
-/

namespace OpenPifPaf

/-! ## Dental plugin constants (`plugins/dental/constants.py`) -/

namespace Dental

/-- `KEYPOINTS` from `constants.py`. -/
def KEYPOINTS : List String :=
  ["cej_left", "cej_right", "aeac_left", "aeac_right", "apex_left", "apex_right"]

/-- `SKELETON` from `constants.py`: pairs of 1-based keypoint indices. -/
def SKELETON : List (Nat × Nat) := [(1, 3), (3, 5), (2, 4), (4, 6)]

/-- `SIGMAS = [0.05] * len(KEYPOINTS)`. -/
def SIGMAS : List ℚ := List.replicate KEYPOINTS.length (5 / 100)

/-- The `SCORE_WEIGHTS` construction from `constants.py`, for an arbitrary
keypoint count `n`:
`split, error = divmod(n, 4)` and then
`[10.0]*split + [3.0]*split + [1.0]*split + [0.1]*split + [0.1]*error`. -/
def score_weights (n : Nat) : List ℚ :=
  let split := n / 4
  let error := n % 4
  List.replicate split 10 ++ List.replicate split 3 ++
    List.replicate split 1 ++ List.replicate split (1 / 10) ++
    List.replicate error (1 / 10)

/-- `SCORE_WEIGHTS` from `constants.py`, instantiated at the dental keypoints. -/
def SCORE_WEIGHTS : List ℚ := score_weights KEYPOINTS.length

/-- `HFLIP` from `constants.py`, as an association list (the Python dict has
distinct keys, so ordered lookup is an exact model). -/
def HFLIP : List (String × String) :=
  [("cej_left", "cej_right"), ("cej_right", "cej_left"),
   ("aeac_left", "aeac_right"), ("aeac_right", "aeac_left"),
   ("apex_left", "apex_right"), ("apex_right", "apex_left")]

/-- `print_associations` from `constants.py`.  For each skeleton edge it reads
`KEYPOINTS[j1 - 1]` and `KEYPOINTS[j2 - 1]`; an out-of-range access is an
`IndexError`, modelled by `none`.  The printed pairs are returned. -/
def print_associations : Option (List (String × String)) :=
  SKELETON.mapM (fun e =>
    match KEYPOINTS.get? (e.1 - 1), KEYPOINTS.get? (e.2 - 1) with
    | some a, some b => some (a, b)
    | _, _ => none)

end Dental

/-! ## Decoder configuration (`decoder/factory.py`) -/

/-- `--connection-method` has exactly the choices `max` and `blend`. -/
inductive ConnectionMethod where
  | max
  | blend
deriving DecidableEq, Repr

/-- The argument record that `cli`/`configure` operate on.  `batch_size` is
accessed via `getattr(args, 'batch_size', 1)`, so it is optional here as well. -/
structure Args where
  cif_th : ℚ
  seed_threshold : ℚ
  caf_th : ℚ
  instance_threshold : ℚ
  keypoint_threshold : Option ℚ
  force_complete_pose : Bool
  greedy : Bool
  connection_method : ConnectionMethod
  decoder_workers : Option Nat
  batch_size : Option Nat
  debug : Bool
  dense_connections : Bool
  dense_coupling : ℚ
  caf_seeds : Bool
  multi_scale : Bool
  multi_scale_hflip : Bool
deriving DecidableEq, Repr

/-- The class-level attributes that `configure` assigns
(`CifHr.v_threshold`, `CifSeeds.threshold`, `CafScored.default_score_th`,
and the `generator.CifCaf` settings). -/
structure DecoderGlobals where
  cifHr_v_threshold : ℚ
  cifSeeds_threshold : ℚ
  cafScored_default_score_th : ℚ
  cifCaf_force_complete : Bool
  cifCaf_keypoint_threshold : ℚ
  cifCaf_greedy : Bool
  cifCaf_connection_method : ConnectionMethod
deriving DecidableEq, Repr

/-- `configure(args)` from `decoder/factory.py`.  It derives a default
`keypoint_threshold` when none was given, checks the two `assert` statements,
defaults `decoder_workers` to the batch size when batching is active and debug
is off, and installs the `generator.CifCaf` (and other) class attributes.
A failed `assert` is `Except.error`. -/
def configure (args : Args) : Except String (Args × DecoderGlobals) :=
  let keypoint_threshold : ℚ :=
    match args.keypoint_threshold with
    | none => if args.force_complete_pose then 0 else 1 / 1000
    | some v => v
  if args.force_complete_pose = true ∧ keypoint_threshold ≠ 0 then
    Except.error "AssertionError: args.keypoint_threshold == 0.0"
  else if args.seed_threshold < keypoint_threshold then
    Except.error "AssertionError: args.seed_threshold >= args.keypoint_threshold"
  else
    let decoder_workers : Option Nat :=
      if args.decoder_workers = none ∧ args.batch_size.getD 1 > 1 ∧ args.debug = false then
        some (args.batch_size.getD 1)
      else args.decoder_workers
    Except.ok
      ({ args with
          keypoint_threshold := some keypoint_threshold,
          decoder_workers := decoder_workers },
       { cifHr_v_threshold := args.cif_th,
         cifSeeds_threshold := args.seed_threshold,
         cafScored_default_score_th := args.caf_th,
         cifCaf_force_complete := args.force_complete_pose,
         cifCaf_keypoint_threshold := keypoint_threshold,
         cifCaf_greedy := args.greedy,
         cifCaf_connection_method := args.connection_method })

/-- Modelled from the spec: `FieldConfig` lives in `decoder/field_config.py`,
which is not among the provided sources.  Per the spec it bundles the
per-scale CIF/CAF metadata (indices, strides, min-scales, distance bounds,
`max_distance = None` meaning unbounded) together with an optional per-edge
`confidence_scales` multiplier that is only installed for dense connections;
the defaults describe a single plain CIF/CAF pair. -/
structure FieldConfig where
  cif_indices : List Nat := [0]
  caf_indices : List Nat := [1]
  cif_strides : List ℚ := [8]
  caf_strides : List ℚ := [8]
  cif_min_scales : List ℚ := [0]
  caf_min_distances : List ℚ := [0]
  caf_max_distances : List (Option ℚ) := [none]
  confidence_scales : Option (List ℚ) := none
deriving DecidableEq, Repr

/-- The part of the model that `factory_decode` reads: `model.head_names`
and `model.head_strides`. -/
structure Model where
  head_names : List String
  head_strides : List ℚ
deriving DecidableEq, Repr

/-- The decoder taxonomy `factory_decode` dispatches over: a `CifDet`
detection decoder or a `generator.CifCaf` assembler with its field
configuration, keypoint names, skeleton and output skeleton.  `factory.py`
line 132 references `CifDet` without ever importing or defining it, so the
`cifDet` variant is what that branch intends but can never actually return
(the name lookup raises `NameError`). -/
inductive Decoder where
  | cifDet (stride : ℚ) (head_index : Nat)
  | cifCaf (field_config : FieldConfig) (keypoints : List String)
      (skeleton : List (Nat × Nat)) (out_skeleton : List (Nat × Nat))
deriving DecidableEq, Repr

/-- `[model.head_strides[i] for i in indices]`: Python raises `IndexError`
when any index is out of range. -/
def strides_at (head_strides : List ℚ) (indices : List Nat) : Except String (List ℚ) :=
  if indices.all (fun i => i < head_strides.length) then
    Except.ok (indices.map (fun i => head_strides.getD i 0))
  else
    Except.error "IndexError: head_strides"

/-- The multi-scale min-scale list `[0.0, 12.0, 16.0, 24.0, 40.0]`. -/
def cif_min_scales5 : List ℚ := [0, 12, 16, 24, 40]

/-- The multi-scale max-distance list `[160.0, 240.0, 320.0, 480.0, None]`. -/
def caf_max_distances5 : List (Option ℚ) :=
  [some 160, some 240, some 320, some 480, none]

/-- `factory_decode(model, ...)` from `decoder/factory.py`.  The globals
`COCO_KEYPOINTS`, `COCO_PERSON_SKELETON` and `DENSER_COCO_PERSON_CONNECTIONS`
are imported from `openpifpaf.data`, which is not among the provided sources;
they are taken as explicit parameters.  The `('cifdet',)` branch evaluates the
unbound name `CifDet` and therefore raises `NameError` before touching its
arguments.  The `visualizer.Cif`/`visualizer.Caf` objects of lines 171-182 are
debug-only and not carried in the result, but the indexing their comprehensions
perform (`model.head_names[i]` and `field_config.cif_strides[i]` for `i` in
the configured index lists) is modelled, since it raises `IndexError` when an
index is out of range. -/
def factory_decode (coco_keypoints : List String)
    (coco_person_skeleton : List (Nat × Nat))
    (denser_coco_person_connections : List (Nat × Nat))
    (model : Model) (dense_coupling : ℚ) (dense_connections : Bool)
    (caf_seeds : Bool) (multi_scale : Bool) (multi_scale_hflip : Bool) :
    Except String Decoder :=
  if caf_seeds then Except.error "AssertionError: not implemented" else
  let head_names := model.head_names
  if head_names = ["cifdet"] then
    Except.error "NameError: name CifDet is not defined"
  else if head_names = ["cif", "caf", "caf25"] then do
    let field_config : FieldConfig := {}
    let field_config ←
      if multi_scale then do
        let cif_indices := if dense_connections
          then (List.range 5).map (fun v => v * 2)
          else (List.range 5).map (fun v => v * 3)
        let caf_indices := if dense_connections
          then (List.range 5).map (fun v => v * 2 + 1)
          else (List.range 5).map (fun v => v * 3 + 1)
        let cif_strides ← strides_at model.head_strides cif_indices
        let caf_strides ← strides_at model.head_strides caf_indices
        pure { field_config with
          cif_indices := cif_indices,
          caf_indices := caf_indices,
          cif_strides := cif_strides,
          caf_strides := caf_strides,
          cif_min_scales := cif_min_scales5,
          caf_min_distances := cif_min_scales5.map (fun v => v * 3),
          caf_max_distances := caf_max_distances5 }
      else pure field_config
    let field_config ←
      if multi_scale ∧ multi_scale_hflip then do
        let cif_indices := if dense_connections
          then (List.range 10).map (fun v => v * 2)
          else (List.range 10).map (fun v => v * 3)
        let caf_indices := if dense_connections
          then (List.range 10).map (fun v => v * 2 + 1)
          else (List.range 10).map (fun v => v * 3 + 1)
        let cif_strides ← strides_at model.head_strides cif_indices
        let caf_strides ← strides_at model.head_strides caf_indices
        pure { field_config with
          cif_indices := cif_indices,
          caf_indices := caf_indices,
          cif_strides := cif_strides,
          caf_strides := caf_strides,
          cif_min_scales := field_config.cif_min_scales ++ field_config.cif_min_scales,
          caf_min_distances := field_config.caf_min_distances ++ field_config.caf_min_distances,
          caf_max_distances := field_config.caf_max_distances ++ field_config.caf_max_distances }
      else pure field_config
    let (field_config, skeleton) :=
      if dense_connections then
        ({ field_config with
            confidence_scales := some
              (coco_person_skeleton.map (fun _ => (1 : ℚ)) ++
               denser_coco_person_connections.map (fun _ => dense_coupling)) },
         coco_person_skeleton ++ denser_coco_person_connections)
      else (field_config, coco_person_skeleton)
    if (field_config.cif_indices.zip field_config.cif_strides).all
        (fun p => p.1 < model.head_names.length ∧ p.1 < field_config.cif_strides.length) then
      if (field_config.caf_indices.zip field_config.caf_strides).all
          (fun p => p.1 < model.head_names.length) then
        pure (Decoder.cifCaf field_config coco_keypoints skeleton coco_person_skeleton)
      else
        Except.error "IndexError: caf visualizer field indexing"
    else
      Except.error "IndexError: cif visualizer field indexing"
  else
    Except.error "Exception: decoder unknown for head names"

/-! ## Concrete instances used to exercise the theorems -/

/-- A concrete argument record in the CLI's shape: `keypoint_threshold=None`,
`force_complete_pose=True`, no batching, debug off, with sample (integral)
threshold values. -/
def default_args : Args :=
  { cif_th := 1, seed_threshold := 1, caf_th := 1,
    instance_threshold := 0, keypoint_threshold := none,
    force_complete_pose := true, greedy := false,
    connection_method := ConnectionMethod.max,
    decoder_workers := none, batch_size := none, debug := false,
    dense_connections := false, dense_coupling := 2,
    caf_seeds := false, multi_scale := false, multi_scale_hflip := true }

/-- The globals that `configure default_args` (and batch/debug variants of it)
installs. -/
def default_globals : DecoderGlobals :=
  { cifHr_v_threshold := 1, cifSeeds_threshold := 1,
    cafScored_default_score_th := 1, cifCaf_force_complete := true,
    cifCaf_keypoint_threshold := 0, cifCaf_greedy := false,
    cifCaf_connection_method := ConnectionMethod.max }

/-- An explicit keypoint threshold above the seed threshold. -/
def args_threshold_violation : Args :=
  { default_args with force_complete_pose := false, keypoint_threshold := some 2 }

/-- The result of `configure default_args`. -/
def res_default : Args × DecoderGlobals :=
  ({ default_args with keypoint_threshold := some 0 }, default_globals)

/-- Defaults with a batch size of 3 (batching active, debug off). -/
def args_batch : Args := { default_args with batch_size := some 3 }

/-- The result of `configure args_batch`. -/
def res_batch : Args × DecoderGlobals :=
  ({ default_args with
      batch_size := some 3,
      keypoint_threshold := some 0,
      decoder_workers := some 3 }, default_globals)

/-- Defaults with a batch size of 2 but debug enabled. -/
def args_debug_batch : Args :=
  { default_args with batch_size := some 2, debug := true }

/-- The result of `configure args_debug_batch`. -/
def res_debug_batch : Args × DecoderGlobals :=
  ({ default_args with
      batch_size := some 2,
      debug := true,
      keypoint_threshold := some 0 }, default_globals)

/-- A model with a head-name tuple no decoder is defined for. -/
def model_unknown : Model := { head_names := ["pif", "paf"], head_strides := [8] }

/-- A detection-only model. -/
def model_cifdet : Model := { head_names := ["cifdet"], head_strides := [8] }

/-- A single-scale CifCaf model. -/
def model_cifcaf : Model :=
  { head_names := ["cif", "caf", "caf25"], head_strides := [8, 8, 8] }

/-- A CifCaf model with enough head strides for multi-scale hflip indexing. -/
def model_multi : Model :=
  { head_names := ["cif", "caf", "caf25"], head_strides := List.replicate 29 8 }

/-! ## Theorems -/

/-- Claim C8: every edge of the dental `SKELETON` consists of 1-based indices
bounded by the keypoint count, so the `KEYPOINTS[j1 - 1]` and
`KEYPOINTS[j2 - 1]` accesses of `print_associations` are all in bounds and the
function succeeds. -/
theorem dental_skeleton_edges_in_bounds :
    (∀ e ∈ Dental.SKELETON,
      1 ≤ e.1 ∧ e.1 ≤ Dental.KEYPOINTS.length ∧
      1 ≤ e.2 ∧ e.2 ≤ Dental.KEYPOINTS.length) ∧
    Dental.print_associations.isSome = true := by
  decide

/-- Witness for C8: the first skeleton edge `(1, 3)` is in bounds. -/
theorem dental_skeleton_edges_in_bounds_witness :
    1 ≤ ((1, 3) : Nat × Nat).1 ∧ ((1, 3) : Nat × Nat).1 ≤ Dental.KEYPOINTS.length ∧
    1 ≤ ((1, 3) : Nat × Nat).2 ∧ ((1, 3) : Nat × Nat).2 ≤ Dental.KEYPOINTS.length :=
  dental_skeleton_edges_in_bounds.1 (1, 3) (by decide)

/-- Claim C9: the `SCORE_WEIGHTS` construction `[10.0]*split + [3.0]*split +
[1.0]*split + [0.1]*split + [0.1]*error` with `split, error = divmod(n, 4)`
always has length exactly `n`, so the module-level length assertion holds — in
particular at the 6 dental keypoints. -/
theorem dental_score_weights_length :
    (∀ n : Nat, (Dental.score_weights n).length = n) ∧
    Dental.SCORE_WEIGHTS.length = Dental.KEYPOINTS.length := by
  refine ⟨fun n => ?_, by decide⟩
  simp only [Dental.score_weights, List.length_append, List.length_replicate]
  omega

/-- Claim C10: the dental `HFLIP` map is an involution on exactly the keypoint
set: every keypoint maps to a keypoint, applying it twice is the identity, and
there are no keys outside `KEYPOINTS`. -/
theorem dental_hflip_involution :
    (∀ k ∈ Dental.KEYPOINTS, ∃ v ∈ Dental.KEYPOINTS,
      Dental.HFLIP.lookup k = some v ∧ Dental.HFLIP.lookup v = some k) ∧
    ∀ p ∈ Dental.HFLIP, p.1 ∈ Dental.KEYPOINTS := by
  decide

/-- Witness for C10: the involution at the keypoint `cej_left`. -/
theorem dental_hflip_involution_witness :
    ∃ v ∈ Dental.KEYPOINTS,
      Dental.HFLIP.lookup "cej_left" = some v ∧
      Dental.HFLIP.lookup v = some "cej_left" :=
  dental_hflip_involution.1 "cej_left" (by decide)

/-- Claim C1: with an explicit keypoint threshold, `configure` fails (with a
configuration error, before any decoding) exactly when
`seed_threshold < keypoint_threshold` or `force_complete_pose` is set with a
nonzero `keypoint_threshold`; when both invariants hold it completes. -/
theorem configure_threshold_invariants (args : Args) (kt : ℚ)
    (h : args.keypoint_threshold = some kt) :
    (∃ e, configure args = Except.error e) ↔
      (args.seed_threshold < kt ∨ (args.force_complete_pose = true ∧ kt ≠ 0)) := by
  unfold configure
  rw [h]
  by_cases h1 : args.force_complete_pose = true ∧ kt ≠ 0
  · simp [h1]
  · by_cases h2 : args.seed_threshold < kt
    · simp [h1, h2]
    · simp [h1, h2]

/-- Witness for C1: a keypoint threshold of 2 above the seed threshold 1 is
rejected by `configure`. -/
theorem configure_threshold_invariants_witness :
    ∃ e, configure args_threshold_violation = Except.error e :=
  (configure_threshold_invariants args_threshold_violation 2 rfl).mpr
    (Or.inl (by norm_num [args_threshold_violation, default_args]))

/-- Claim C4: when `keypoint_threshold` is left unset, `configure` derives it
as `0.0` under `force_complete_pose` and `0.001` otherwise, and installs that
derived value both back into the arguments and as the assembler's
(`generator.CifCaf`) keypoint threshold. -/
theorem configure_default_keypoint_threshold (args : Args)
    (h : args.keypoint_threshold = none)
    (res : Args × DecoderGlobals) (hok : configure args = Except.ok res) :
    res.2.cifCaf_keypoint_threshold =
      (if args.force_complete_pose then 0 else 1 / 1000) ∧
    res.1.keypoint_threshold =
      some (if args.force_complete_pose then (0 : ℚ) else 1 / 1000) := by
  unfold configure at hok
  rw [h] at hok
  dsimp only at hok
  split_ifs at hok <;>
    first
      | exact Except.noConfusion hok
      | (injection hok with hok
         subst hok
         exact ⟨by simp_all, by simp_all⟩)

/-- Witness for C4: `configure` at the defaults (forced completion, unset
keypoint threshold) installs the derived threshold `0.0`. -/
theorem configure_default_keypoint_threshold_witness :
    res_default.2.cifCaf_keypoint_threshold =
      (if default_args.force_complete_pose then 0 else 1 / 1000) ∧
    res_default.1.keypoint_threshold =
      some (if default_args.force_complete_pose then (0 : ℚ) else 1 / 1000) :=
  configure_default_keypoint_threshold default_args rfl res_default rfl

/-- Counterexample to claim C7 as stated: with `batch_size = 2` (batching
active) but `debug` enabled, `configure` leaves `decoder_workers` unset
instead of setting it to the batch size. -/
theorem configure_workers_counterexample :
    args_debug_batch.decoder_workers = none ∧
    args_debug_batch.batch_size.getD 1 > 1 ∧
    configure args_debug_batch = Except.ok res_debug_batch ∧
    res_debug_batch.1.decoder_workers = none :=
  ⟨rfl, by norm_num [args_debug_batch, default_args], rfl, rfl⟩

/-- Claim C7 (amended): when `decoder_workers` is unset, `configure` sets it
to the batch size exactly when the batch size exceeds 1 and debug mode is off;
otherwise it stays unset. -/
theorem configure_workers_default (args : Args)
    (h : args.decoder_workers = none)
    (res : Args × DecoderGlobals) (hok : configure args = Except.ok res) :
    res.1.decoder_workers =
      (if args.batch_size.getD 1 > 1 ∧ args.debug = false
       then some (args.batch_size.getD 1) else none) := by
  unfold configure at hok
  dsimp only at hok
  split_ifs at hok <;>
    first
      | exact Except.noConfusion hok
      | (injection hok with hok
         subst hok
         rename_i hw
         first
           | exact (if_pos ⟨hw.2.1, hw.2.2⟩).symm
           | exact h.trans (if_neg
               (fun hcc : args.batch_size.getD 1 > 1 ∧ args.debug = false =>
                 hw ⟨by simp [h], hcc.1, hcc.2⟩)).symm)

/-- Witness for C7 (amended): batch size 3 with debug off yields a worker
pool of size 3. -/
theorem configure_workers_default_witness :
    res_batch.1.decoder_workers =
      (if args_batch.batch_size.getD 1 > 1 ∧ args_batch.debug = false
       then some (args_batch.batch_size.getD 1) else none) :=
  configure_workers_default args_batch rfl res_batch rfl

/-- Claim C2: for any model whose head-name tuple is neither `('cifdet',)` nor
`('cif', 'caf', 'caf25')`, `factory_decode` raises instead of returning a
decoder. -/
theorem factory_decode_unknown_head_error (ck : List String)
    (cs dcs : List (Nat × Nat)) (model : Model) (dc : ℚ)
    (dense cafs ms msh : Bool)
    (h1 : model.head_names ≠ ["cifdet"])
    (h2 : model.head_names ≠ ["cif", "caf", "caf25"]) :
    ∃ e, factory_decode ck cs dcs model dc dense cafs ms msh = Except.error e := by
  unfold factory_decode
  cases cafs with
  | true => exact ⟨"AssertionError: not implemented", by simp⟩
  | false => exact ⟨"Exception: decoder unknown for head names", by simp [h1, h2]⟩

/-- Witness for C2: the head names `('pif', 'paf')` have no decoder. -/
theorem factory_decode_unknown_head_error_witness :
    ∃ e, factory_decode ["nose"] [(1, 2)] [(2, 3)] model_unknown (1 / 100)
        false false false true = Except.error e :=
  factory_decode_unknown_head_error _ _ _ _ _ _ _ _ _ (by decide) (by decide)

/-- Claim C3 (code bug): `factory.py` never imports or defines `CifDet`, so
for every model whose head-name tuple is exactly `('cifdet',)` the dedicated
branch at line 132 raises `NameError` on the name lookup instead of returning
the detection decoder the claim (and the spec's `CifDet` variant) describe. -/
theorem factory_decode_cifdet_name_error (ck : List String)
    (cs dcs : List (Nat × Nat)) (model : Model) (dc : ℚ) (dense ms msh : Bool)
    (h : model.head_names = ["cifdet"]) :
    factory_decode ck cs dcs model dc dense false ms msh =
      Except.error "NameError: name CifDet is not defined" := by
  obtain ⟨hn, hstr⟩ := model
  have h' : hn = ["cifdet"] := h
  subst h'
  rfl

/-- Witness for C3: a one-head `cifdet` model hits the `NameError`. -/
theorem factory_decode_cifdet_name_error_witness :
    factory_decode ["nose"] [(1, 2)] [(2, 3)] model_cifdet 2 false false false true =
      Except.error "NameError: name CifDet is not defined" :=
  factory_decode_cifdet_name_error ["nose"] [(1, 2)] [(2, 3)] model_cifdet 2
    false false true rfl

/-- Claim C5: for a CifCaf model (single scale), enabling `dense_connections`
makes `factory_decode` assemble over the base skeleton followed by the dense
connections, with per-edge confidence scales of `1.0` for every base edge and
`dense_coupling` for every dense edge, while `out_skeleton` stays the base
skeleton; with dense connections disabled no confidence scales are set and the
skeleton is the base skeleton only. -/
theorem factory_decode_dense_connections (ck : List String)
    (cs dcs : List (Nat × Nat)) (model : Model) (dc : ℚ) (dense msh : Bool)
    (h : model.head_names = ["cif", "caf", "caf25"]) :
    factory_decode ck cs dcs model dc dense false false msh =
      Except.ok (Decoder.cifCaf
        { confidence_scales :=
            if dense then some (cs.map (fun _ => (1 : ℚ)) ++ dcs.map (fun _ => dc))
            else none }
        ck (if dense then cs ++ dcs else cs) cs) := by
  obtain ⟨hn, hstr⟩ := model
  have h' : hn = ["cif", "caf", "caf25"] := h
  subst h'
  cases dense <;> rfl

/-- Witness for C5: a single-scale CifCaf model with dense connections over a
one-edge base skeleton and a one-edge dense list. -/
theorem factory_decode_dense_connections_witness :
    factory_decode ["nose"] [(1, 2)] [(2, 3)] model_cifcaf 2 true false false true =
      Except.ok (Decoder.cifCaf
        { confidence_scales :=
            if true then
              some ([(1, 2)].map (fun _ => (1 : ℚ)) ++
                [((2 : Nat), (3 : Nat))].map (fun _ => (2 : ℚ)))
            else none }
        ["nose"] (if true then [(1, 2)] ++ [(2, 3)] else [(1, 2)]) [(1, 2)]) :=
  factory_decode_dense_connections ["nose"] [(1, 2)] [(2, 3)] model_cifcaf 2 true true rfl

/-- Claim C6 (code bug): once `multi_scale` is on, the cif visualizer
comprehension at `factory.py` lines 171-176 indexes `model.head_names[i]` for
`i` up to 27 (dense: 18) although the branch guarantees exactly 3 head names,
and `field_config.cif_strides[i]` beyond its 10 entries, so `factory_decode`
raises `IndexError` on every multi-scale-hflip invocation instead of returning
the decoder with the 10 configured CIF/CAF pairs that the claim describes. -/
theorem factory_decode_multi_scale_hflip_raises (ck : List String)
    (cs dcs : List (Nat × Nat)) (model : Model) (dc : ℚ) (dense : Bool)
    (h : model.head_names = ["cif", "caf", "caf25"]) :
    ∃ e, factory_decode ck cs dcs model dc dense false true true =
      Except.error e := by
  obtain ⟨hn, hstr⟩ := model
  have h' : hn = ["cif", "caf", "caf25"] := h
  subst h'
  cases dense with
  | false =>
    by_cases hc1 : (((List.range 5).map (fun v => v * 3)).all
        fun i => decide (i < hstr.length)) = true <;>
    by_cases hc2 : (((List.range 5).map (fun v => v * 3 + 1)).all
        fun i => decide (i < hstr.length)) = true <;>
    by_cases hc3 : (((List.range 10).map (fun v => v * 3)).all
        fun i => decide (i < hstr.length)) = true <;>
    by_cases hc4 : (((List.range 10).map (fun v => v * 3 + 1)).all
        fun i => decide (i < hstr.length)) = true <;>
      (unfold factory_decode strides_at
       dsimp only
       simp only [Bool.false_eq_true, if_false, if_true, eq_self_iff_true, and_self,
         String.reduceEq, List.cons.injEq, and_false, false_and, and_true, true_and,
         hc1, hc2, hc3, hc4]
       exact ⟨_, rfl⟩)
  | true =>
    by_cases hc1 : (((List.range 5).map (fun v => v * 2)).all
        fun i => decide (i < hstr.length)) = true <;>
    by_cases hc2 : (((List.range 5).map (fun v => v * 2 + 1)).all
        fun i => decide (i < hstr.length)) = true <;>
    by_cases hc3 : (((List.range 10).map (fun v => v * 2)).all
        fun i => decide (i < hstr.length)) = true <;>
    by_cases hc4 : (((List.range 10).map (fun v => v * 2 + 1)).all
        fun i => decide (i < hstr.length)) = true <;>
      (unfold factory_decode strides_at
       dsimp only
       simp only [Bool.false_eq_true, if_false, if_true, eq_self_iff_true, and_self,
         String.reduceEq, List.cons.injEq, and_false, false_and, and_true, true_and,
         hc1, hc2, hc3, hc4]
       exact ⟨_, rfl⟩)

/-- Witness for C6: a CifCaf model with 29 head strides still raises in
multi-scale hflip mode. -/
theorem factory_decode_multi_scale_hflip_raises_witness :
    ∃ e, factory_decode ["nose"] [(1, 2)] [(2, 3)] model_multi 2 false false true true =
      Except.error e :=
  factory_decode_multi_scale_hflip_raises ["nose"] [(1, 2)] [(2, 3)] model_multi 2
    false rfl

end OpenPifPaf
